import Mathlib

/-!
Verification of the air-quality calculation and forecast engine
(`air_quality_calculator.py` and `forecast_service.py`).

Modelling conventions:
- Python floats are embedded as rationals (ℚ); Python ints as ℤ or ℕ.
- A Python dict argument that the code tests for truthiness
  (`if tempo_data:` etc.) is embedded as an `Option` of a structure:
  `none` models an empty dict or `None`, `some b` a non-empty dict whose
  individual keys may still be missing (`Option` fields, `.get` becomes
  `Option.getD` where the code supplies a default).
- `round` in Python 3 is banker-style rounding (round half to even);
  `pyRound` reproduces it on ℚ.
- Wall-clock time is abstracted: the generation moment is a parameter
  `now : ℕ` counting calendar days (epoch days), so the date string
  produced by `strftime` for `now + timedelta(days=d)` is modelled by the
  number `now + d`; the calendar month of an epoch day is an abstract
  parameter `month_of : ℕ → ℕ`.
- The built-in `hash(str(n))` is an abstract parameter `h : ℕ → ℤ`:
  within one Python process it is a fixed function, but its value differs
  between processes because string hashing is randomized.
- Python `%` on integers with a positive modulus agrees with Lean Int `%`
  (both are nonnegative), so `h d % 3` translates literally.
-/

namespace Apollo14

/-- Banker-style rounding on ℚ, matching Python 3 round. -/
def pyRound (q : ℚ) : ℤ :=
  let f := ⌊q⌋
  let r := q - f
  if r < 1/2 then f
  else if 1/2 < r then f + 1
  else if f % 2 = 0 then f else f + 1

/-- The pollutant identifiers known to the calculator. -/
inductive Pollutant
  | no2
  | o3
  | pm25
  | pm10
  | hcho
deriving DecidableEq

/-- One row (c_low, c_high, aqi_low, aqi_high) of a breakpoint table. -/
structure Breakpoint where
  c_low : ℚ
  c_high : ℚ
  aqi_low : ℚ
  aqi_high : ℚ
deriving DecidableEq

/-- The breakpoint tables of AirQualityCalculator.aqi_breakpoints;
a pollutant absent from the dict (hcho) maps to none. -/
def aqi_breakpoints (p : Pollutant) : Option (List Breakpoint) :=
  match p with
  | .pm25 => some [⟨0, 12, 0, 50⟩, ⟨12.1, 35.4, 51, 100⟩, ⟨35.5, 55.4, 101, 150⟩,
      ⟨55.5, 150.4, 151, 200⟩, ⟨150.5, 250.4, 201, 300⟩, ⟨250.5, 500.4, 301, 500⟩]
  | .pm10 => some [⟨0, 54, 0, 50⟩, ⟨55, 154, 51, 100⟩, ⟨155, 254, 101, 150⟩,
      ⟨255, 354, 151, 200⟩, ⟨355, 424, 201, 300⟩, ⟨425, 604, 301, 500⟩]
  | .no2 => some [⟨0, 53, 0, 50⟩, ⟨54, 100, 51, 100⟩, ⟨101, 360, 101, 150⟩,
      ⟨361, 649, 151, 200⟩, ⟨650, 1249, 201, 300⟩, ⟨1250, 2049, 301, 500⟩]
  | .o3 => some [⟨0, 54, 0, 50⟩, ⟨55, 70, 51, 100⟩, ⟨71, 85, 101, 150⟩,
      ⟨86, 105, 151, 200⟩, ⟨106, 200, 201, 300⟩, ⟨201, 500, 301, 500⟩]
  | .hcho => none

/-- AirQualityCalculator._calculate_pollutant_aqi: find the first bracket
containing the concentration and interpolate linearly; 3 when the
pollutant has no table; 500 when no bracket matches. -/
def calculate_pollutant_aqi (p : Pollutant) (concentration : ℚ) : ℤ :=
  match aqi_breakpoints p with
  | none => 3
  | some breakpoints =>
    match breakpoints.find?
        (fun b => decide (b.c_low ≤ concentration ∧ concentration ≤ b.c_high)) with
    | some b =>
        pyRound ((b.aqi_high - b.aqi_low) / (b.c_high - b.c_low)
          * (concentration - b.c_low) + b.aqi_low)
    | none => 500

/-- The pollutant keys a non-empty tempo_data dict can carry. -/
structure TempoBundle where
  no2 : Option ℚ
  o3 : Option ℚ
  hcho : Option ℚ
  source : Option String
deriving DecidableEq

/-- The pollutant keys a non-empty ground_data dict can carry. -/
structure GroundBundle where
  pm25 : Option ℚ
  pm10 : Option ℚ
  no2 : Option ℚ
  o3 : Option ℚ
  source : Option String
deriving DecidableEq

/-- Python truthiness test on an optional numeric value:
None and 0 are falsy. -/
def isFalsy (v : Option ℚ) : Bool :=
  match v with
  | none => true
  | some x => x == 0

/-- Python truthiness test on an optional string: None and the empty
string are falsy. -/
def strFalsy (v : Option String) : Bool :=
  match v with
  | none => true
  | some s => s == ""

/-- The merged pollutant map built by _extract_pollutants; a key that was
never written, or written as None, is none. -/
structure Pollutants where
  no2 : Option ℚ
  o3 : Option ℚ
  pm25 : Option ℚ
  pm10 : Option ℚ
  hcho : Option ℚ
deriving DecidableEq

/-- AirQualityCalculator._extract_pollutants: tempo values first, then,
when the ground dict is truthy, pm25 and pm10 from ground and a fallback
to the ground no2 and o3 when the tempo value is falsy. -/
def extract_pollutants (tempo : Option TempoBundle) (ground : Option GroundBundle) :
    Pollutants :=
  let tno2 := match tempo with | some t => t.no2 | none => none
  let to3 := match tempo with | some t => t.o3 | none => none
  let thcho := match tempo with | some t => t.hcho | none => none
  match ground with
  | none => ⟨tno2, to3, none, none, thcho⟩
  | some g =>
      ⟨if isFalsy tno2 then g.no2 else tno2,
       if isFalsy to3 then g.o3 else to3,
       g.pm25, g.pm10, thcho⟩

/-- The keys a non-empty weather_data dict can carry. -/
structure WeatherData where
  wind_speed : Option ℚ
  temperature : Option ℚ
  humidity : Option ℚ
  pressure : Option ℚ
deriving DecidableEq

/-- AirQualityCalculator._apply_weather_corrections: additive adjustments
from wind, temperature, humidity and pressure, then a clamp to [0, 500];
a falsy weather dict returns the input unchanged, with no clamp. -/
def apply_weather_corrections (aqi : ℤ) (weather : Option WeatherData) : ℤ :=
  match weather with
  | none => aqi
  | some w =>
    let wind_speed := w.wind_speed.getD 5
    let a1 := if wind_speed > 10 then aqi - 10 else if wind_speed < 2 then aqi + 15 else aqi
    let temperature := w.temperature.getD 20
    let a2 := if temperature > 30 then a1 + 10 else if temperature < 5 then a1 - 5 else a1
    let humidity := w.humidity.getD 50
    let a3 := if humidity > 80 then a2 + 5 else if humidity < 30 then a2 - 5 else a2
    let pressure := w.pressure.getD 1013
    let a4 := if pressure < 1000 then a3 + 10 else a3
    max 0 (min 500 a4)

/-- AirQualityCalculator._scale_aqi_to_5. -/
def scale_aqi_to_5 (aqi : ℤ) : ℤ :=
  if aqi ≤ 50 then 1
  else if aqi ≤ 100 then 2
  else if aqi ≤ 150 then 3
  else if aqi ≤ 200 then 4
  else 5

/-- AirQualityCalculator._get_data_sources. -/
def get_data_sources (tempo : Option TempoBundle) (ground : Option GroundBundle) :
    List String :=
  let s1 := match tempo with
    | some t => if strFalsy t.source then [] else [t.source.getD ""]
    | none => []
  let s2 := match ground with
    | some g => if strFalsy g.source then [] else [g.source.getD ""]
    | none => []
  let sources := s1 ++ s2
  if sources.isEmpty then ["mock_data"] else sources

/-- AirQualityCalculator._calculate_weather_factor. -/
def calculate_weather_factor (weather : Option WeatherData) : ℚ :=
  match weather with
  | none => 1/2
  | some w =>
    let wind_speed := w.wind_speed.getD 5
    let f1 : ℚ := 1/2 + (if wind_speed > 10 then -(2/10) else if wind_speed < 2 then 2/10 else 0)
    let temperature := w.temperature.getD 20
    let f2 := f1 + (if temperature > 30 then 1/10 else if temperature < 5 then -(1/10) else 0)
    let humidity := w.humidity.getD 50
    let f3 := f2 + (if humidity > 80 then 1/10 else if humidity < 30 then -(1/10) else 0)
    max 0 (min 1 f3)

/-- The result dict of calculate_aqi, with the individual_aqi sub-dict
flattened into the five individual fields; the wall-clock timestamp field
is outside the embedding. -/
structure IndexResult where
  aqi : ℤ
  no2 : Option ℚ
  o3 : Option ℚ
  pm25 : Option ℚ
  pm10 : Option ℚ
  sources : List String
  individual_no2 : Option ℤ
  individual_o3 : Option ℤ
  individual_pm25 : Option ℤ
  individual_pm10 : Option ℤ
  individual_hcho : Option ℤ
  weather_factor : ℚ
deriving DecidableEq

/-- The filter in the calculate_aqi loop: a pollutant enters aqi_values
only when its concentration is present and strictly positive. -/
def sub_index (p : Pollutant) (c : Option ℚ) : Option ℤ :=
  match c with
  | some conc => if 0 < conc then some (calculate_pollutant_aqi p conc) else none
  | none => none

/-- AirQualityCalculator._get_default_aqi (timestamp omitted). -/
def get_default_aqi : IndexResult :=
  ⟨3, none, none, none, none, ["default"], none, none, none, none, none, 1/2⟩

/-- AirQualityCalculator.calculate_aqi. With well-typed optional-rational
inputs no statement of the body can raise, so the except branch that
returns _get_default_aqi is unreachable and the translation is total. -/
def calculate_aqi (tempo : Option TempoBundle) (ground : Option GroundBundle)
    (weather : Option WeatherData) : IndexResult :=
  let pollutants := extract_pollutants tempo ground
  let ino2 := sub_index Pollutant.no2 pollutants.no2
  let io3 := sub_index Pollutant.o3 pollutants.o3
  let ipm25 := sub_index Pollutant.pm25 pollutants.pm25
  let ipm10 := sub_index Pollutant.pm10 pollutants.pm10
  let ihcho := sub_index Pollutant.hcho pollutants.hcho
  let vals := List.reduceOption [ino2, io3, ipm25, ipm10, ihcho]
  let overall_aqi := match vals with
    | [] => 3
    | v :: vs => vs.foldl max v
  let weather_corrected_aqi := apply_weather_corrections overall_aqi weather
  let scaled_aqi := scale_aqi_to_5 weather_corrected_aqi
  ⟨scaled_aqi, pollutants.no2, pollutants.o3, pollutants.pm25, pollutants.pm10,
   get_data_sources tempo ground, ino2, io3, ipm25, ipm10, ihcho,
   calculate_weather_factor weather⟩

/-!
ForecastService.
-/

/-- The keys of the current_data dict the forecast consumes. -/
structure CurrentData where
  aqi : Option ℤ
  no2 : Option ℚ
  o3 : Option ℚ
  pm25 : Option ℚ
deriving DecidableEq

/-- ForecastService._get_current_data: the fixed mock baseline
(timestamp omitted). -/
def get_current_data : CurrentData :=
  ⟨some 3, some 25, some 60, some 20⟩

/-- A weather forecast dict for one day. -/
structure WeatherForecast where
  temperature : Option ℚ
  humidity : Option ℚ
  wind_speed : Option ℚ
  pressure : Option ℚ
  conditions : String
deriving DecidableEq

/-- ForecastService._get_weather_conditions: pick from the fixed list by
the hash of the day offset. -/
def get_weather_conditions (h : ℕ → ℤ) (days_ahead : ℕ) : String :=
  let conds := ["clear", "partly cloudy", "cloudy", "overcast", "rainy"]
  conds.getD (h days_ahead % 5).toNat "clear"

/-- ForecastService._get_weather_forecast: the synthesized mock weather,
driven by the abstract string-hash h. -/
def get_weather_forecast (h : ℕ → ℤ) (days_ahead : ℕ) : WeatherForecast :=
  ⟨some ((20 : ℚ) + ((h days_ahead % 15 : ℤ) : ℚ) - 7),
   some ((50 : ℚ) + ((h (days_ahead + 1) % 30 : ℤ) : ℚ) - 15),
   some ((5 : ℚ) + ((h (days_ahead + 2) % 10 : ℤ) : ℚ) - 5),
   some ((1013 : ℚ) + ((h (days_ahead + 3) % 20 : ℤ) : ℚ) - 10),
   get_weather_conditions h days_ahead⟩

/-- ForecastService._calculate_weather_impact: sum of the three
single-factor impacts, clamped to [-2, 2]. -/
def calculate_weather_impact (wf : WeatherForecast) : ℤ :=
  let temp := wf.temperature.getD 20
  let i1 : ℤ := if temp > 30 then 1 else if temp < 5 then -1 else 0
  let wind_speed := wf.wind_speed.getD 5
  let i2 := i1 + (if wind_speed > 10 then -1 else if wind_speed < 2 then 1 else 0)
  let humidity := wf.humidity.getD 50
  let i3 := i2 + (if humidity > 80 then 1 else if humidity < 30 then -1 else 0)
  max (-2) (min 2 i3)

/-- ForecastService._calculate_seasonal_factor: +1 in summer and winter
months of the projected day, -1 otherwise. -/
def calculate_seasonal_factor (month_of : ℕ → ℕ) (now : ℕ) (days_ahead : ℕ) : ℤ :=
  let month := month_of (now + days_ahead)
  if month = 6 ∨ month = 7 ∨ month = 8 then 1
  else if month = 12 ∨ month = 1 ∨ month = 2 then 1
  else -1

/-- The random_variation term of _calculate_forecast_aqi:
(hash(str(days_ahead)) percent 3) minus 1, with the process-dependent
string hash abstracted as h. -/
def random_variation (h : ℕ → ℤ) (days_ahead : ℕ) : ℤ :=
  h days_ahead % 3 - 1

/-- ForecastService._calculate_forecast_aqi. -/
def calculate_forecast_aqi (h : ℕ → ℤ) (month_of : ℕ → ℕ) (now : ℕ)
    (cur : CurrentData) (wf : WeatherForecast) (days_ahead : ℕ) : ℤ :=
  let base_aqi := cur.aqi.getD 3
  let weather_factor := calculate_weather_impact wf
  let seasonal_factor := calculate_seasonal_factor month_of now days_ahead
  let rv := random_variation h days_ahead
  max 1 (min 5 (base_aqi + weather_factor + seasonal_factor + rv))

/-- The dict returned by _generate_pollutant_forecasts; all three keys
are always written. -/
structure PollutantForecasts where
  no2 : ℚ
  o3 : ℚ
  pm25 : ℚ
deriving DecidableEq

/-- ForecastService._generate_pollutant_forecasts. The days_ahead
argument is accepted and unused, as in the source. A current_data key
present with value None would raise in Python and divert that day to the
default day forecast; the embedded Option covers the key-absent case,
which takes the documented default. -/
def generate_pollutant_forecasts (cur : CurrentData) (wf : WeatherForecast)
    (_days_ahead : ℕ) : PollutantForecasts :=
  let base_no2 := cur.no2.getD 25
  let base_o3 := cur.o3.getD 60
  let base_pm25 := cur.pm25.getD 20
  let temp_factor := wf.temperature.getD 20 / 20
  let wind_factor := wf.wind_speed.getD 5 / 5
  let humidity_factor := wf.humidity.getD 50 / 50
  ⟨base_no2 * (1 + (temp_factor - 1) * (2/10)) * (1 - (wind_factor - 1) * (1/10)),
   base_o3 * (1 + (temp_factor - 1) * (3/10)) * (1 + (humidity_factor - 1) * (1/10)),
   base_pm25 * (1 - (wind_factor - 1) * (2/10)) * (1 + (humidity_factor - 1) * (1/10))⟩

/-- ForecastService._calculate_confidence. -/
def calculate_confidence (days_ahead : ℕ) : ℚ :=
  let base_confidence : ℚ := 9/10
  let decay_rate : ℚ := 1/10
  let confidence := base_confidence - ((days_ahead : ℚ) - 1) * decay_rate
  max (3/10) (min 1 confidence)

/-- ForecastService._calculate_trend. -/
def calculate_trend (cur : CurrentData) (forecast_aqi : ℤ) : String :=
  let current_aqi := cur.aqi.getD 3
  if (forecast_aqi : ℚ) > (current_aqi : ℚ) + 1/2 then "worsening"
  else if (forecast_aqi : ℚ) < (current_aqi : ℚ) - 1/2 then "improving"
  else "stable"

/-- One element of the forecast list; the date string of
strftime is modelled as the epoch-day number now + days_ahead. -/
structure DayForecast where
  date : ℕ
  aqi_value : ℤ
  no2_level : ℚ
  o3_level : ℚ
  pm25_level : ℚ
  weather : WeatherForecast
  confidence : ℚ
  trend : String
deriving DecidableEq

/-- ForecastService._generate_day_forecast. -/
def generate_day_forecast (h : ℕ → ℤ) (month_of : ℕ → ℕ) (now : ℕ)
    (days_ahead : ℕ) (cur : CurrentData) : DayForecast :=
  let wf := get_weather_forecast h days_ahead
  let forecast_aqi := calculate_forecast_aqi h month_of now cur wf days_ahead
  let pf := generate_pollutant_forecasts cur wf days_ahead
  ⟨now + days_ahead, forecast_aqi, pf.no2, pf.o3, pf.pm25, wf,
   calculate_confidence days_ahead, calculate_trend cur forecast_aqi⟩

/-- ForecastService._get_default_day_forecast. -/
def get_default_day_forecast (now : ℕ) (days_ahead : ℕ) : DayForecast :=
  ⟨now + days_ahead, 3, 25, 60, 20,
   ⟨some 20, some 50, some 5, some 1013, "partly cloudy"⟩,
   1/2, "stable"⟩

/-- ForecastService._get_default_forecast: seven default day forecasts
for offsets 1..7. -/
def get_default_forecast (now : ℕ) : List DayForecast :=
  (List.range 7).map (fun i => get_default_day_forecast now (i + 1))

/-- ForecastService.generate_forecast: a falsy current_data is replaced
by the mock baseline, then one day forecast per offset 1..7. -/
def generate_forecast (h : ℕ → ℤ) (month_of : ℕ → ℕ) (now : ℕ)
    (current_data : Option CurrentData) : List DayForecast :=
  let cur := current_data.getD get_current_data
  (List.range 7).map (fun i => generate_day_forecast h month_of now (i + 1) cur)

/-- The NO2 merge rule exactly as the spec words it: the primary (tempo)
value when it is present and non-falsy, otherwise the secondary (ground)
value. Written from the spec wording, for comparison with
extract_pollutants. -/
def claimed_no2_merge (tempo : Option TempoBundle) (ground : Option GroundBundle) :
    Option ℚ :=
  let tval := tempo.bind TempoBundle.no2
  if isFalsy tval then ground.bind GroundBundle.no2 else tval

/-!
The claims.
-/

/-- Claim C1, counterexample: with all pollutants absent and weather
absent, calculate_aqi does not return the documented default result; the
default path is not taken. -/
theorem C1_counterexample :
    calculate_aqi none none none ≠ get_default_aqi := by
  intro hc
  have hsources := congrArg IndexResult.sources hc
  simp [calculate_aqi, get_default_aqi, get_data_sources] at hsources

/-- Claim C1, amended: with all pollutants absent and weather absent,
calculate_aqi takes the computed path: the overall EPA default 3 maps to
scaledIndex 1, there are no sub-indices, the sources list is the
mock_data marker, and the weather factor is one half. -/
theorem C1_empty_input_computed_result :
    (calculate_aqi none none none).aqi = 1 ∧
    (calculate_aqi none none none).individual_no2 = none ∧
    (calculate_aqi none none none).individual_o3 = none ∧
    (calculate_aqi none none none).individual_pm25 = none ∧
    (calculate_aqi none none none).individual_pm10 = none ∧
    (calculate_aqi none none none).individual_hcho = none ∧
    (calculate_aqi none none none).sources = ["mock_data"] ∧
    (calculate_aqi none none none).weather_factor = 1/2 := by
  norm_num [calculate_aqi, extract_pollutants, sub_index, apply_weather_corrections,
    scale_aqi_to_5, get_data_sources, calculate_weather_factor]

/-- Claim C2: the NO2 breakpoint table is not contiguous. The
concentration 53.5 lies inside [0, 2049] (the top bracket upper bound)
yet falls in the gap between the brackets 0..53 and 54..100, so the code
returns the sub-index 500 that its own comment reserves for
concentrations above the highest breakpoint. -/
theorem C2_gap_concentration_returns_500 :
    calculate_pollutant_aqi Pollutant.no2 (53.5 : ℚ) = 500 ∧
    (0 : ℚ) ≤ 53.5 ∧ (53.5 : ℚ) ≤ 2049 := by
  norm_num [calculate_pollutant_aqi, aqi_breakpoints, List.find?]

/-- Claim C3: for the bundle with no2 53 from tempo and pm25 35.4 from
ground, with all-default weather, the NO2 sub-index is exactly 50, the
PM2.5 sub-index exactly 100, no other sub-index is present, the overall
EPA index 100 is unchanged by the weather correction, and the scaled
index is 2. -/
theorem C3_boundary_example :
    calculate_pollutant_aqi Pollutant.no2 53 = 50 ∧
    calculate_pollutant_aqi Pollutant.pm25 (35.4 : ℚ) = 100 ∧
    (calculate_aqi (some ⟨some 53, none, none, none⟩)
        (some ⟨some (35.4 : ℚ), none, none, none, none⟩)
        (some ⟨some 5, some 20, some 50, some 1013⟩)).individual_no2 = some 50 ∧
    (calculate_aqi (some ⟨some 53, none, none, none⟩)
        (some ⟨some (35.4 : ℚ), none, none, none, none⟩)
        (some ⟨some 5, some 20, some 50, some 1013⟩)).individual_pm25 = some 100 ∧
    (calculate_aqi (some ⟨some 53, none, none, none⟩)
        (some ⟨some (35.4 : ℚ), none, none, none, none⟩)
        (some ⟨some 5, some 20, some 50, some 1013⟩)).individual_o3 = none ∧
    (calculate_aqi (some ⟨some 53, none, none, none⟩)
        (some ⟨some (35.4 : ℚ), none, none, none, none⟩)
        (some ⟨some 5, some 20, some 50, some 1013⟩)).individual_pm10 = none ∧
    (calculate_aqi (some ⟨some 53, none, none, none⟩)
        (some ⟨some (35.4 : ℚ), none, none, none, none⟩)
        (some ⟨some 5, some 20, some 50, some 1013⟩)).individual_hcho = none ∧
    apply_weather_corrections 100 (some ⟨some 5, some 20, some 50, some 1013⟩) = 100 ∧
    (calculate_aqi (some ⟨some 53, none, none, none⟩)
        (some ⟨some (35.4 : ℚ), none, none, none, none⟩)
        (some ⟨some 5, some 20, some 50, some 1013⟩)).aqi = 2 := by
  norm_num [calculate_aqi, extract_pollutants, sub_index, apply_weather_corrections,
    scale_aqi_to_5, calculate_pollutant_aqi, aqi_breakpoints, List.find?, pyRound,
    isFalsy, List.reduceOption, List.filterMap, List.foldl, max_def]

/-- Claim C4: for every input, including empty bundles and empty
weather, the scaled index returned by calculate_aqi is an integer in
1..5, and the default-path result also carries a scaled index in 1..5. -/
theorem C4_scaled_index_range :
    (∀ tempo ground weather,
      1 ≤ (calculate_aqi tempo ground weather).aqi ∧
      (calculate_aqi tempo ground weather).aqi ≤ 5) ∧
    (1 ≤ get_default_aqi.aqi ∧ get_default_aqi.aqi ≤ 5) := by
  have hs : ∀ a : ℤ, 1 ≤ scale_aqi_to_5 a ∧ scale_aqi_to_5 a ≤ 5 := by
    intro a
    unfold scale_aqi_to_5
    split_ifs <;> omega
  exact ⟨fun tempo ground weather => hs _, by norm_num [get_default_aqi]⟩

/-- Claim C5: generate_forecast always returns exactly 7 day forecasts
whose dates are the 7 consecutive days after the generation day, in
ascending order, and the internal-failure default path returns forecasts
for the same 7 dates. -/
theorem C5_forecast_seven_days :
    ∀ (h : ℕ → ℤ) (month_of : ℕ → ℕ) (now : ℕ) (current_data : Option CurrentData),
      (generate_forecast h month_of now current_data).length = 7 ∧
      (generate_forecast h month_of now current_data).map DayForecast.date
        = [now + 1, now + 2, now + 3, now + 4, now + 5, now + 6, now + 7] ∧
      (get_default_forecast now).length = 7 ∧
      (get_default_forecast now).map DayForecast.date
        = [now + 1, now + 2, now + 3, now + 4, now + 5, now + 6, now + 7] := by
  intro h month_of now current_data
  exact ⟨rfl, rfl, rfl, rfl⟩

/-- Claim C6: for every day offset 1..7 the confidence equals the
documented clamp formula, lies between 3/10 and 1, and strictly
decreases, from 9/10 on day 1 down to 3/10 on day 7. -/
theorem C6_confidence_decay :
    (∀ d : ℕ, 1 ≤ d → d ≤ 7 →
      calculate_confidence d
        = max (3/10) (min 1 (9/10 - ((d : ℚ) - 1) * (1/10))) ∧
      3/10 ≤ calculate_confidence d ∧ calculate_confidence d ≤ 1 ∧
      (d < 7 → calculate_confidence (d + 1) < calculate_confidence d)) ∧
    calculate_confidence 1 = 9/10 ∧ calculate_confidence 7 = 3/10 := by
  refine ⟨fun d h1 h2 => ?_, by norm_num [calculate_confidence],
    by norm_num [calculate_confidence]⟩
  interval_cases d <;>
    refine ⟨by norm_num [calculate_confidence], by norm_num [calculate_confidence],
      by norm_num [calculate_confidence], ?_⟩ <;>
    first
      | (intro hlt; norm_num [calculate_confidence]; done)
      | (intro hlt; exact absurd hlt (by norm_num))

/-- Claim C6 witness: the theorem applied at day offset 1. -/
theorem C6_confidence_decay_witness :
    calculate_confidence 2 < calculate_confidence 1 ∧
    3/10 ≤ calculate_confidence 1 :=
  ⟨(C6_confidence_decay.1 1 (by norm_num) (by norm_num)).2.2.2 (by norm_num),
   (C6_confidence_decay.1 1 (by norm_num) (by norm_num)).2.1⟩

/-- Claim C7, counterexample: with a tempo bundle carrying no2 = 0 and
an empty (falsy) ground dict, the merged no2 is 0 from the primary,
while the merge rule as the claim words it gives the secondary value,
which is absent. -/
theorem C7_counterexample :
    (extract_pollutants (some ⟨some 0, none, none, none⟩) none).no2 = some 0 ∧
    claimed_no2_merge (some ⟨some 0, none, none, none⟩) none = none := by
  norm_num [extract_pollutants, claimed_no2_merge, isFalsy]

/-- Claim C7, amended: when the ground dict is truthy, merged NO2 and O3
are the tempo value when that value is non-falsy and the ground value
otherwise; when the ground dict is falsy, the tempo value is kept even
when falsy. Merged PM2.5 and PM10 come only from ground, merged HCHO
only from tempo. -/
theorem C7_merge_policy (tempo : Option TempoBundle) (ground : Option GroundBundle) :
    (extract_pollutants tempo ground).no2
      = (match ground with
         | none => tempo.bind TempoBundle.no2
         | some g =>
             if isFalsy (tempo.bind TempoBundle.no2) then g.no2
             else tempo.bind TempoBundle.no2) ∧
    (extract_pollutants tempo ground).o3
      = (match ground with
         | none => tempo.bind TempoBundle.o3
         | some g =>
             if isFalsy (tempo.bind TempoBundle.o3) then g.o3
             else tempo.bind TempoBundle.o3) ∧
    (extract_pollutants tempo ground).pm25 = ground.bind GroundBundle.pm25 ∧
    (extract_pollutants tempo ground).pm10 = ground.bind GroundBundle.pm10 ∧
    (extract_pollutants tempo ground).hcho = tempo.bind TempoBundle.hcho := by
  cases tempo <;> cases ground <;> exact ⟨rfl, rfl, rfl, rfl, rfl⟩

/-- Claim C8: holding the base index and the other weather fields fixed,
the corrected index with wind above 10 is at most the corrected index
with wind in [2, 10], which is at most the corrected index with wind
below 2. -/
theorem C8_wind_antitone (aqi : ℤ) (t hu p : Option ℚ) (w1 w2 w3 : ℚ)
    (h1 : w1 > 10) (h2 : 2 ≤ w2) (h3 : w2 ≤ 10) (h4 : w3 < 2) :
    apply_weather_corrections aqi (some ⟨some w1, t, hu, p⟩)
      ≤ apply_weather_corrections aqi (some ⟨some w2, t, hu, p⟩) ∧
    apply_weather_corrections aqi (some ⟨some w2, t, hu, p⟩)
      ≤ apply_weather_corrections aqi (some ⟨some w3, t, hu, p⟩) := by
  have clamp_mono : ∀ a b : ℤ, a ≤ b → max 0 (min 500 a) ≤ max 0 (min 500 b) :=
    fun a b hab => max_le_max le_rfl (min_le_min le_rfl hab)
  constructor
  · simp only [apply_weather_corrections, Option.getD_some]
    rw [if_pos h1, if_neg (not_lt.mpr h3), if_neg (not_lt.mpr h2)]
    apply clamp_mono
    split_ifs <;> omega
  · simp only [apply_weather_corrections, Option.getD_some]
    rw [if_neg (not_lt.mpr h3), if_neg (not_lt.mpr h2),
      if_neg (not_lt.mpr (le_of_lt (lt_trans h4 (by norm_num)))), if_pos h4]
    apply clamp_mono
    split_ifs <;> omega

/-- Claim C8 witness: the theorem applied with base index 100, no other
weather fields, and wind speeds 11, 5 and 1. -/
theorem C8_wind_antitone_witness :
    ((11 : ℚ) > 10 ∧ (2 : ℚ) ≤ 5 ∧ (5 : ℚ) ≤ 10 ∧ (1 : ℚ) < 2) ∧
    (apply_weather_corrections 100 (some ⟨some 11, none, none, none⟩)
        ≤ apply_weather_corrections 100 (some ⟨some 5, none, none, none⟩) ∧
      apply_weather_corrections 100 (some ⟨some 5, none, none, none⟩)
        ≤ apply_weather_corrections 100 (some ⟨some 1, none, none, none⟩)) :=
  ⟨⟨by norm_num, by norm_num, by norm_num, by norm_num⟩,
   C8_wind_antitone 100 none none none 11 5 1
     (by norm_num) (by norm_num) (by norm_num) (by norm_num)⟩

/-- Claim C9: the stochastic term is always one of -1, 0 and 1, but it
is not a function of the day offset alone: it also depends on the
process string-hash, so two runs whose hash seeds give hash values 0 and
1 at day offset 1 produce different terms. -/
theorem C9_stochastic_term :
    random_variation (fun _ => 0) 1 ≠ random_variation (fun _ => 1) 1 ∧
    ∀ (h : ℕ → ℤ) (d : ℕ),
      random_variation h d = -1 ∨ random_variation h d = 0 ∨
        random_variation h d = 1 := by
  constructor
  · intro hc
    simp [random_variation] at hc
  · intro h d
    unfold random_variation
    omega

/-- Claim C10: with a forecast wind speed of 35 (wind ratio 7, above the
claimed threshold 30) and the positive baseline pm25 = 20, the projected
pm25 level is strictly negative. -/
theorem C10_negative_pm25_projection :
    (30 : ℚ) < 35 ∧ (0 : ℚ) < 20 ∧
    (generate_pollutant_forecasts ⟨some 3, some 25, some 60, some 20⟩
        ⟨some 20, some 50, some 35, some 1013, "clear"⟩ 1).pm25 < 0 := by
  norm_num [generate_pollutant_forecasts]

end Apollo14
